import Mathlib

/-!
Verification of the Asterisk programming language core (lexer, parser,
interpreter, builtin library) against its natural-language specification.

The definitions below are a shallow embedding of the C++ sources:
  - src/lexer.hpp                (TokenType, Token, lexer)
  - src/parser/parser.hpp        (Parser, parse_expression, parse_* statements)
  - src/parser/expressions.hpp   (expression AST)
  - src/parser/statements.hpp    (statement AST)
  - src/parser/functions.hpp     (Value, value_to_string, FunctionRegistry)
  - src/interpreter.hpp          (Interpreter: evaluate_*, execute_*)

Modelling conventions:
  - C++ int is modelled as Lean Int (no claim exercises 32-bit overflow).
  - C++ float is modelled as Rat; the transcendental library calls
    (std::pow with non-integer exponent, std::sqrt, the 6-decimal rendering
    of std::to_string) are modelled by exact rational stand-ins; no claim
    depends on their values.
  - std::unordered_map is modelled as an association list: lookup,
    assign-through-operator[] (insert or update) and emplace (insert if
    absent) are the only operations the source performs.
  - C++ exceptions (std::runtime_error e) become Except String carrying the
    exact message string the source throws; the ReturnException non-local
    transfer becomes an Option Value flow result of statement execution.
  - Recursion through user-defined function calls is unbounded in the
    source, so the parser and the evaluator take a fuel argument that is
    decremented on entry of each recursive function; fuel exhaustion
    yields the artificial message "out of fuel", which no source path
    produces, so theorems about .ok results are unaffected.
-/

/-- Quote and brace characters, named so they can be used in data below. -/
def squote : Char := Char.ofNat 39

def dquote : Char := Char.ofNat 34

def lbraceC : Char := Char.ofNat 123

def rbraceC : Char := Char.ofNat 125

/-- TokenType from src/lexer.hpp, constructors in source (enum) order. -/
inductive TokenType where
  | IDENTIFIER | INT | STRING | FLOAT | CHAR | BOOL
  | IF | THEN | RET | WHILE | FOR | ELSE
  | CONTINUE | BREAK | IN | ROOM | VAR | FUNC
  | PLUS | MINUS | EQUALS | STAR | SLASH | CARET
  | OPEN_PAREN | CLOSE_PAREN | OPEN_CURLY | CLOSE_CURLY
  | OPEN_BRACK | CLOSE_BRACK | COMMA | SEMICOLON | COLON
  | PRINT | ROUND | FLOOR | CEIL | ABS | MIN | MAX | SQRT | POW
  | ROOM_IDENTIFIER
  deriving DecidableEq, Repr

/-- The numeric value of a TokenType as a C++ enum constant (used by the
parser's expect error message via std::to_string). -/
def tokenTypeIdx : TokenType → Nat
  | .IDENTIFIER => 0 | .INT => 1 | .STRING => 2 | .FLOAT => 3 | .CHAR => 4
  | .BOOL => 5 | .IF => 6 | .THEN => 7 | .RET => 8 | .WHILE => 9
  | .FOR => 10 | .ELSE => 11 | .CONTINUE => 12 | .BREAK => 13 | .IN => 14
  | .ROOM => 15 | .VAR => 16 | .FUNC => 17 | .PLUS => 18 | .MINUS => 19
  | .EQUALS => 20 | .STAR => 21 | .SLASH => 22 | .CARET => 23
  | .OPEN_PAREN => 24 | .CLOSE_PAREN => 25 | .OPEN_CURLY => 26
  | .CLOSE_CURLY => 27 | .OPEN_BRACK => 28 | .CLOSE_BRACK => 29
  | .COMMA => 30 | .SEMICOLON => 31 | .COLON => 32 | .PRINT => 33
  | .ROUND => 34 | .FLOOR => 35 | .CEIL => 36 | .ABS => 37 | .MIN => 38
  | .MAX => 39 | .SQRT => 40 | .POW => 41 | .ROOM_IDENTIFIER => 42

/-- struct Token from src/lexer.hpp. -/
structure Token where
  type : TokenType
  value : String
  deriving DecidableEq, Repr

/-- The character set of the single-character-operator branch of the lexer:
the C++ literal is the string of the characters plus hyphen equals star
slash parens single-quote braces brackets comma semicolon colon caret
(strchr at src/lexer.hpp line 49).  strchr also matches the terminating
NUL; a NUL input character is skipped without a token by that branch,
exactly as the final catch-all branch would, so it is not special-cased
here. -/
def opChars : List Char :=
  ['+', '-', '=', '*', '/', '(', ')', squote, lbraceC, rbraceC,
   '[', ']', ',', ';', ':', '^']

/-- The switch inside the single-character branch (src/lexer.hpp 50-67).
There is no case for the single-quote character, so it yields no token. -/
def charTokenOf (c : Char) : Option Token :=
  if c = '+' then some ⟨.PLUS, "+"⟩
  else if c = '-' then some ⟨.MINUS, "-"⟩
  else if c = '=' then some ⟨.EQUALS, "="⟩
  else if c = '*' then some ⟨.STAR, "*"⟩
  else if c = '/' then some ⟨.SLASH, "/"⟩
  else if c = '(' then some ⟨.OPEN_PAREN, "("⟩
  else if c = ')' then some ⟨.CLOSE_PAREN, ")"⟩
  else if c = '[' then some ⟨.OPEN_BRACK, "["⟩
  else if c = ']' then some ⟨.CLOSE_BRACK, "]"⟩
  else if c = lbraceC then some ⟨.OPEN_CURLY, String.mk [lbraceC]⟩
  else if c = rbraceC then some ⟨.CLOSE_CURLY, String.mk [rbraceC]⟩
  else if c = ',' then some ⟨.COMMA, ","⟩
  else if c = ';' then some ⟨.SEMICOLON, ";"⟩
  else if c = ':' then some ⟨.COLON, ":"⟩
  else if c = '^' then some ⟨.CARET, "^"⟩
  else none

/-- C isspace in the default locale. -/
def isSpaceC (c : Char) : Bool :=
  c = ' ' || c = '\t' || c = '\n' || c = '\x0b' || c = '\x0c' || c = '\r'

/-- Greedy scan: the longest prefix satisfying p, and the rest. -/
def lexSpan (p : Char → Bool) : List Char → List Char × List Char
  | [] => ([], [])
  | c :: cs =>
    if p c then
      let r := lexSpan p cs
      (c :: r.1, r.2)
    else ([], c :: cs)

/-- The numeric-literal loop of the lexer (src/lexer.hpp 88-93): digits,
with at most one embedded dot.  Returns the scanned characters, the final
hasDot flag, and the rest. -/
def scanNum (hasDot : Bool) : List Char → List Char × Bool × List Char
  | [] => ([], hasDot, [])
  | c :: cs =>
    if c.isDigit then
      let r := scanNum hasDot cs
      (c :: r.1, r.2.1, r.2.2)
    else if ¬hasDot ∧ c = '.' then
      let r := scanNum true cs
      (c :: r.1, r.2.1, r.2.2)
    else ([], hasDot, c :: cs)

/-- The keyword / builtin-name classification of an identifier word
(src/lexer.hpp 106-131).  Note that the source has no case for the word
while, which therefore falls through to IDENTIFIER. -/
def classifyWord (w : String) : Token :=
  -- word.length() > 5 && word.substr(word.length() - 5) == "_ROOM"
  if w.length > 5 && List.isSuffixOf "_ROOM".toList w.toList then ⟨.ROOM_IDENTIFIER, w⟩
  else if w = "if" then ⟨.IF, w⟩
  else if w = "then" then ⟨.THEN, w⟩
  else if w = "ret" then ⟨.RET, w⟩
  else if w = "for" then ⟨.FOR, w⟩
  else if w = "else" then ⟨.ELSE, w⟩
  else if w = "continue" then ⟨.CONTINUE, w⟩
  else if w = "break" then ⟨.BREAK, w⟩
  else if w = "in" then ⟨.IN, w⟩
  else if w = "room" then ⟨.ROOM, w⟩
  else if w = "var" then ⟨.VAR, w⟩
  else if w = "func" then ⟨.FUNC, w⟩
  else if w = "true" ∨ w = "false" then ⟨.BOOL, w⟩
  else if w = "print" then ⟨.PRINT, w⟩
  else if w = "round" then ⟨.ROUND, w⟩
  else if w = "floor" then ⟨.FLOOR, w⟩
  else if w = "ceil" then ⟨.CEIL, w⟩
  else if w = "abs" then ⟨.ABS, w⟩
  else if w = "min" then ⟨.MIN, w⟩
  else if w = "max" then ⟨.MAX, w⟩
  else if w = "sqrt" then ⟨.SQRT, w⟩
  else if w = "pow" then ⟨.POW, w⟩
  else ⟨.IDENTIFIER, w⟩

/-- The main loop of lexer(std::string) from src/lexer.hpp, one fuel unit
per loop iteration.  Every iteration of the C++ loop consumes at least one
character, so fuel equal to the input length always suffices; fuel 0 is
unreachable from lexer below. -/
def lexGo : Nat → List Char → List Token
  | 0, _ => []
  | _, [] => []
  | n + 1, c :: cs =>
    if isSpaceC c then lexGo n cs
    else if c ∈ opChars then
      match charTokenOf c with
      | some t => t :: lexGo n cs
      | none => lexGo n cs
    else if c = dquote then
      match lexSpan (fun x => x ≠ dquote) cs with
      | (body, _ :: rest) =>
        ⟨.STRING, String.mk (dquote :: (body ++ [dquote]))⟩ :: lexGo n rest
      | (body, []) => ⟨.STRING, String.mk (dquote :: body)⟩ :: lexGo n []
    else if c = squote then
      -- src/lexer.hpp 79-85: dead code, since squote is in opChars and the
      -- branch above is tried first.
      match lexSpan (fun x => x ≠ squote) cs with
      | (body, _ :: rest) =>
        ⟨.CHAR, String.mk (squote :: (body ++ [squote]))⟩ :: lexGo n rest
      | (body, []) => ⟨.CHAR, String.mk (squote :: body)⟩ :: lexGo n []
    else if c.isDigit then
      match scanNum false cs with
      | (ds, hasDot, rest) =>
        match rest with
        | f :: rest' =>
          if f = 'f' then
            ⟨.FLOAT, String.mk ((c :: ds) ++ ['f'])⟩ :: lexGo n rest'
          else
            ⟨if hasDot then .FLOAT else .INT, String.mk (c :: ds)⟩ :: lexGo n (f :: rest')
        | [] => ⟨if hasDot then .FLOAT else .INT, String.mk (c :: ds)⟩ :: lexGo n []
    else if c.isAlpha || c = '_' then
      match lexSpan (fun x => x.isAlphanum || x = '_') cs with
      | (w, rest) => classifyWord (String.mk (c :: w)) :: lexGo n rest
    else lexGo n cs

/-- lexer(std::string line) from src/lexer.hpp. -/
def lexer (s : String) : List Token := lexGo s.toList.length s.toList

/-! ## Value model (src/parser/functions.hpp) -/

/-- struct Value: std::variant of int, float, std::string, bool,
ValueArray, constructors in variant order.  ValueArray (a struct owning a
std::vector of Value) is inlined as a List Value. -/
inductive Value where
  | vInt (n : Int)
  | vFloat (q : Rat)
  | vStr (s : String)
  | vBool (b : Bool)
  | vArr (elems : List Value)

/-- The C++ arithmetic view of a Value: std::is_arithmetic_v is true for
int, float AND bool (bool converts to 0 or 1 in arithmetic); strings and
arrays are not arithmetic.  Sum.inl is an integral operand, Sum.inr a
floating one. -/
def arithOf : Value → Option (Int ⊕ Rat)
  | .vInt n => some (.inl n)
  | .vFloat q => some (.inr q)
  | .vBool b => some (.inl (if b then 1 else 0))
  | _ => none

/-- The value of an arithmetic operand as a float (C++ implicit
conversion to floating point). -/
def numToRat : Int ⊕ Rat → Rat
  | .inl n => (n : Rat)
  | .inr q => q

/-- C++'s r == 0 test on an arithmetic operand (used by the division-by-
zero check). -/
def numIsZero : Int ⊕ Rat → Bool
  | .inl n => n = 0
  | .inr q => q = 0

/-- Usual arithmetic conversions for l + r: if either operand is floating
the result is float, otherwise (int/bool operands) it is int. -/
def numAdd : Int ⊕ Rat → Int ⊕ Rat → Value
  | .inl a, .inl b => .vInt (a + b)
  | a, b => .vFloat (numToRat a + numToRat b)

def numSub : Int ⊕ Rat → Int ⊕ Rat → Value
  | .inl a, .inl b => .vInt (a - b)
  | a, b => .vFloat (numToRat a - numToRat b)

def numMul : Int ⊕ Rat → Int ⊕ Rat → Value
  | .inl a, .inl b => .vInt (a * b)
  | a, b => .vFloat (numToRat a * numToRat b)

/-- l / r after the r == 0 check: C++ integer division truncates toward
zero (Int.div); mixed or floating division is exact float division. -/
def numDiv : Int ⊕ Rat → Int ⊕ Rat → Value
  | .inl a, .inl b => .vInt (Int.tdiv a b)
  | a, b => .vFloat (numToRat a / numToRat b)

/-- Models std::pow on floats: exact for integer exponents (the only kind
any claim could exercise); non-integer exponents are transcendental and
modelled by 0. -/
def ratPow (l r : Rat) : Rat :=
  if r.den = 1 then
    if 0 ≤ r.num then l ^ r.num.toNat else (l ^ (-r.num).toNat)⁻¹
  else 0

/-- Models std::round (round half away from zero), as an integer. -/
def roundHalfAway (q : Rat) : Int :=
  if 0 ≤ q then ⌊q + (1 : Rat) / 2⌋ else ⌈q - (1 : Rat) / 2⌉

/-- Models the 6-decimal rendering of std::to_string(float/double),
truncating instead of rounding the sixth decimal (no claim renders a
float whose seventh decimal is nonzero). -/
def ratToString6 (q : Rat) : String :=
  let sign := if q < 0 then "-" else ""
  let n : Int := ⌊|q| * 1000000⌋
  let ip := n / 1000000
  let fp := (n % 1000000).toNat
  let fs := toString fp
  sign ++ toString ip ++ "." ++ String.mk (List.replicate (6 - fs.length) '0') ++ fs

mutual

/-- value_to_string from src/parser/functions.hpp (std::visit: bool, then
string, then array, else std::to_string). -/
def valueToString : Value → String
  | .vBool b => if b then "true" else "false"
  | .vStr s => String.mk (dquote :: s.toList) ++ String.mk [dquote]
  | .vArr vs => "[" ++ valueListToString vs ++ "]"
  | .vInt n => toString n
  | .vFloat q => ratToString6 q

/-- The element loop of the array case of value_to_string: elements
rendered in order, separated by comma-space. -/
def valueListToString : List Value → String
  | [] => ""
  | [v] => valueToString v
  | v :: rest => valueToString v ++ ", " ++ valueListToString rest

end

/-! ## Builtin function library (src/parser/functions.hpp, FunctionRegistry) -/

def roundBuiltin (args : List Value) : Except String Value :=
  match args with
  | [v] =>
    match arithOf v with
    | some a => .ok (.vInt (roundHalfAway (numToRat a)))
    | none => .error "round() requires numeric argument"
  | _ => .error "round() expects exactly 1 argument"

def floorBuiltin (args : List Value) : Except String Value :=
  match args with
  | [v] =>
    match arithOf v with
    | some a => .ok (.vInt ⌊numToRat a⌋)
    | none => .error "floor() requires numeric argument"
  | _ => .error "floor() expects exactly 1 argument"

def ceilBuiltin (args : List Value) : Except String Value :=
  match args with
  | [v] =>
    match arithOf v with
    | some a => .ok (.vInt ⌈numToRat a⌉)
    | none => .error "ceil() requires numeric argument"
  | _ => .error "ceil() expects exactly 1 argument"

/-- std::abs preserves the static type of an arithmetic argument (bool
promotes to int). -/
def absBuiltin (args : List Value) : Except String Value :=
  match args with
  | [v] =>
    match arithOf v with
    | some (.inl n) => .ok (.vInt |n|)
    | some (.inr q) => .ok (.vFloat |q|)
    | none => .error "abs() requires numeric argument"
  | _ => .error "abs() expects exactly 1 argument"

def minBuiltin (args : List Value) : Except String Value :=
  match args with
  | [v, w] =>
    match arithOf v with
    | none => .error "min() requires numeric arguments"
    | some a =>
      match arithOf w with
      | none => .error "min() requires numeric arguments"
      | some b => .ok (.vFloat (min (numToRat a) (numToRat b)))
  | _ => .error "min() expects exactly 2 arguments"

def maxBuiltin (args : List Value) : Except String Value :=
  match args with
  | [v, w] =>
    match arithOf v with
    | none => .error "max() requires numeric arguments"
    | some a =>
      match arithOf w with
      | none => .error "max() requires numeric arguments"
      | some b => .ok (.vFloat (max (numToRat a) (numToRat b)))
  | _ => .error "max() expects exactly 2 arguments"

/-- std::sqrt modelled by Rat.sqrt (exact on the squares any claim could
touch; no claim depends on sqrt values). -/
def sqrtBuiltin (args : List Value) : Except String Value :=
  match args with
  | [v] =>
    match arithOf v with
    | some a =>
      if numToRat a < 0 then .error "sqrt() requires non-negative argument"
      else .ok (.vFloat (Rat.sqrt (numToRat a)))
    | none => .error "sqrt() requires numeric argument"
  | _ => .error "sqrt() expects exactly 1 argument"

def powBuiltin (args : List Value) : Except String Value :=
  match args with
  | [v, w] =>
    match arithOf v, arithOf w with
    | some a, some b => .ok (.vFloat (ratPow (numToRat a) (numToRat b)))
    | _, _ => .error "pow() requires numeric arguments"
  | _ => .error "pow() expects exactly 2 arguments"

def lenBuiltin (args : List Value) : Except String Value :=
  match args with
  | [.vArr a] => .ok (.vInt a.length)
  | [.vStr s] => .ok (.vInt s.length)
  | [_] => .error "length() requires array or string argument"
  | _ => .error "length() expects exactly 1 argument"

/-- The frag builtin (src/parser/functions.hpp 244-265): array slice
(array, start, end); the checks appear in source order (arity, array
first argument, int bounds, range), and the result is the fresh vector
std::vector(begin+start, begin+end), i.e. the elements of [start, end). -/
def fragBuiltin (args : List Value) : Except String Value :=
  match args with
  | [a0, a1, a2] =>
    match a0 with
    | .vArr arr =>
      match a1, a2 with
      | .vInt s, .vInt e =>
        if s < 0 ∨ e < 0 ∨ s ≥ e ∨ e > (arr.length : Int) then
          .error "frag() requires valid start and end indices"
        else .ok (.vArr ((arr.drop s.toNat).take (e - s).toNat))
      | _, _ => .error "frag() requires integers as second and third arguments"
    | _ => .error "frag() requires array as first argument"
  | _ => .error "frag() expects exactly 3 arguments"


/-! ## AST (src/parser/expressions.hpp, src/parser/statements.hpp) -/

/-- Expression variants.  BinaryExpression and UnaryExpression store the
operator as a TokenType, exactly as the C++ nodes do.  RoomLiteral and
RoomAccess are the array nodes referenced by the interpreter. -/
inductive Expr where
  | intLit (n : Int)
  | floatLit (q : Rat)
  | strLit (s : String)
  | boolLit (b : Bool)
  | ident (name : String)
  | binary (left : Expr) (op : TokenType) (right : Expr)
  | unary (op : TokenType) (operand : Expr)
  | paren (inner : Expr)
  | call (name : String) (args : List Expr)
  | roomLit (elems : List Expr)
  | roomAccess (roomName : String) (index : Expr)

/-- Statement variants from src/parser/statements.hpp (RoomAssignment is
the array-element assignment statement the interpreter handles). -/
inductive Stmt where
  | exprStmt (e : Expr)
  | varDecl (name : String) (init : Option Expr)
  | assign (name : String) (value : Expr)
  | ret (value : Option Expr)
  | funcDecl (name : String) (params : List String) (body : Stmt)
  | ifS (cond : Expr) (thenS : Stmt) (elseS : Option Stmt)
  | whileS (cond : Expr) (body : Stmt)
  | block (stmts : List Stmt)
  | roomAssign (roomName : String) (index : Expr) (value : Expr)

/-! ## Parser (src/parser/parser.hpp) -/

/-- struct Parser: the token vector and the cursor position. -/
structure Parser where
  toks : List Token
  pos : Nat
  deriving Repr

/-- Parser::current_token: reading past the end of the token sequence
yields a synthetic SEMICOLON token with empty text. -/
def currentToken (p : Parser) : Token :=
  p.toks.getD p.pos ⟨.SEMICOLON, ""⟩

/-- Parser::peek_token(offset). -/
def peekToken (p : Parser) (offset : Nat) : Token :=
  p.toks.getD (p.pos + offset) ⟨.SEMICOLON, ""⟩

/-- Parser::advance: the cursor never moves past the end. -/
def advanceP (p : Parser) : Parser :=
  if p.pos < p.toks.length then { p with pos := p.pos + 1 } else p

/-- Parser::match(type). -/
def matchTok (t : TokenType) (p : Parser) : Bool × Parser :=
  if (currentToken p).type = t then (true, advanceP p) else (false, p)

/-- Parser::expect(type): throws with the C++ enum values rendered in
decimal, exactly as std::to_string renders the enumerators. -/
def expectTok (t : TokenType) (p : Parser) : Except String Parser :=
  let m := matchTok t p
  if m.1 then .ok m.2
  else .error ("Expected token type " ++ toString (tokenTypeIdx t) ++
               " but got " ++ toString (tokenTypeIdx (currentToken p).type))

/-- Parser::get_binding_power. -/
def getBindingPower : TokenType → Nat
  | .EQUALS => 1
  | .PLUS | .MINUS => 2
  | .STAR | .SLASH => 3
  | .CARET => 4
  | _ => 0

/-- Decimal value of a digit run. -/
def digitsToNat (l : List Char) : Nat :=
  l.foldl (fun a c => a * 10 + (c.toNat - 48)) 0

/-- std::stoi on the digit strings the lexer produces. -/
def strToInt (s : String) : Int := digitsToNat (lexSpan Char.isDigit s.toList).1

/-- std::stof on the numeric strings the lexer produces: leading digits,
an optional fractional part, an ignored trailing f marker. -/
def strToRat (s : String) : Rat :=
  let l := s.toList
  let ip := (lexSpan Char.isDigit l).1
  let rest := (lexSpan Char.isDigit l).2
  let fp := match rest with
            | '.' :: r => (lexSpan Char.isDigit r).1
            | _ => []
  let ipv : Nat := digitsToNat ip
  let fpv : Nat := digitsToNat fp
  (ipv : Rat) + (fpv : Rat) / ((10 : Rat) ^ fp.length)

/-- Parser::parse_primary strips the surrounding quotes from a STRING
token when both are present. -/
def stripQuotes (s : String) : String :=
  let l := s.toList
  if s.length ≥ 2 ∧ l.headD ' ' = dquote ∧ l.getLastD ' ' = dquote then
    String.mk (l.drop 1 |>.dropLast)
  else s

mutual

/-- Parser::parse_expression(min_precedence): parse a primary, then climb
while the next operator binds strictly tighter than min_precedence. -/
def parseExpression (fuel : Nat) (minPrec : Nat) (p : Parser) :
    Except String (Expr × Parser) :=
  match fuel with
  | 0 => .error "out of fuel"
  | fuel + 1 =>
    match parsePrimary fuel p with
    | .error e => .error e
    | .ok (left, p1) => parseBinLoop fuel minPrec left p1

/-- The while loop inside parse_expression: stops at end of input, or when
the current binding power is ≤ min_precedence; otherwise consumes the
operator and recurses with precedence + 1 for the right operand. -/
def parseBinLoop (fuel : Nat) (minPrec : Nat) (left : Expr) (p : Parser) :
    Except String (Expr × Parser) :=
  match fuel with
  | 0 => .error "out of fuel"
  | fuel + 1 =>
    if p.pos < p.toks.length then
      let op := currentToken p
      let prec := getBindingPower op.type
      if prec ≤ minPrec then .ok (left, p)
      else
        match parseExpression fuel (prec + 1) (advanceP p) with
        | .error e => .error e
        | .ok (right, p2) => parseBinLoop fuel minPrec (.binary left op.type right) p2
    else .ok (left, p)

/-- The do-while argument-list loop shared by the identifier-call and
builtin-name cases of parse_primary. -/
def parseArgsLoop (fuel : Nat) (p : Parser) (acc : List Expr) :
    Except String (List Expr × Parser) :=
  match fuel with
  | 0 => .error "out of fuel"
  | fuel + 1 =>
    match parseExpression fuel 0 p with
    | .error e => .error e
    | .ok (arg, p1) =>
      if (currentToken p1).type = .COMMA then
        parseArgsLoop fuel (advanceP p1) (acc ++ [arg])
      else .ok (acc ++ [arg], p1)

/-- Parser::parse_primary. -/
def parsePrimary (fuel : Nat) (p : Parser) : Except String (Expr × Parser) :=
  match fuel with
  | 0 => .error "out of fuel"
  | fuel + 1 =>
    let tok := currentToken p
    match tok.type with
    | .INT => .ok (.intLit (strToInt tok.value), advanceP p)
    | .FLOAT => .ok (.floatLit (strToRat tok.value), advanceP p)
    | .STRING => .ok (.strLit (stripQuotes tok.value), advanceP p)
    | .BOOL => .ok (.boolLit (tok.value = "true"), advanceP p)
    | .IDENTIFIER =>
      let p1 := advanceP p
      if (currentToken p1).type = .OPEN_PAREN then
        let p2 := advanceP p1
        if (currentToken p2).type = .CLOSE_PAREN then
          match expectTok .CLOSE_PAREN p2 with
          | .error e => .error e
          | .ok p3 => .ok (.call tok.value [], p3)
        else
          match parseArgsLoop fuel p2 [] with
          | .error e => .error e
          | .ok (args, p3) =>
            match expectTok .CLOSE_PAREN p3 with
            | .error e => .error e
            | .ok p4 => .ok (.call tok.value args, p4)
      else .ok (.ident tok.value, p1)
    | .OPEN_PAREN =>
      match parseExpression fuel 0 (advanceP p) with
      | .error e => .error e
      | .ok (inner, p1) =>
        match expectTok .CLOSE_PAREN p1 with
        | .error e => .error e
        | .ok p2 => .ok (.paren inner, p2)
    | .MINUS =>
      match parseExpression fuel (getBindingPower .MINUS) (advanceP p) with
      | .error e => .error e
      | .ok (operand, p1) => .ok (.unary .MINUS operand, p1)
    | .PLUS =>
      match parseExpression fuel (getBindingPower .PLUS) (advanceP p) with
      | .error e => .error e
      | .ok (operand, p1) => .ok (.unary .PLUS operand, p1)
    | .PRINT | .ROUND | .FLOOR | .CEIL | .ABS | .MIN | .MAX | .SQRT | .POW =>
      match expectTok .OPEN_PAREN (advanceP p) with
      | .error e => .error e
      | .ok p1 =>
        if (currentToken p1).type = .CLOSE_PAREN then
          match expectTok .CLOSE_PAREN p1 with
          | .error e => .error e
          | .ok p2 => .ok (.call tok.value [], p2)
        else
          match parseArgsLoop fuel p1 [] with
          | .error e => .error e
          | .ok (args, p2) =>
            match expectTok .CLOSE_PAREN p2 with
            | .error e => .error e
            | .ok p3 => .ok (.call tok.value args, p3)
    | _ => .error ("Unexpected token in primary expression: " ++ tok.value)

end

mutual

/-- Parser::parse_variable_declaration. -/
def parseVarDecl (fuel : Nat) (p : Parser) : Except String (Stmt × Parser) :=
  match fuel with
  | 0 => .error "out of fuel"
  | fuel + 1 =>
    match expectTok .VAR p with
    | .error e => .error e
    | .ok p1 =>
      if (currentToken p1).type ≠ .IDENTIFIER then
        .error "Expected identifier after \x27var\x27"
      else
        let name := (currentToken p1).value
        let p2 := advanceP p1
        let m := matchTok .EQUALS p2
        if m.1 then
          match parseExpression fuel 0 m.2 with
          | .error e => .error e
          | .ok (init, p3) =>
            match expectTok .SEMICOLON p3 with
            | .error e => .error e
            | .ok p4 => .ok (.varDecl name (some init), p4)
        else
          match expectTok .SEMICOLON m.2 with
          | .error e => .error e
          | .ok p3 => .ok (.varDecl name none, p3)

/-- Parser::parse_if_statement. -/
def parseIfStmt (fuel : Nat) (p : Parser) : Except String (Stmt × Parser) :=
  match fuel with
  | 0 => .error "out of fuel"
  | fuel + 1 =>
    match expectTok .IF p with
    | .error e => .error e
    | .ok p1 =>
      match expectTok .OPEN_PAREN p1 with
      | .error e => .error e
      | .ok p2 =>
        match parseExpression fuel 0 p2 with
        | .error e => .error e
        | .ok (cond, p3) =>
          match expectTok .CLOSE_PAREN p3 with
          | .error e => .error e
          | .ok p4 =>
            match expectTok .THEN p4 with
            | .error e => .error e
            | .ok p5 =>
              match parseStatement fuel p5 with
              | .error e => .error e
              | .ok (thenS, p6) =>
                let m := matchTok .ELSE p6
                if m.1 then
                  match parseStatement fuel m.2 with
                  | .error e => .error e
                  | .ok (elseS, p7) => .ok (.ifS cond thenS (some elseS), p7)
                else .ok (.ifS cond thenS none, m.2)

/-- Parser::parse_while_statement (only reachable from a WHILE token,
which the lexer never produces). -/
def parseWhileStmt (fuel : Nat) (p : Parser) : Except String (Stmt × Parser) :=
  match fuel with
  | 0 => .error "out of fuel"
  | fuel + 1 =>
    match expectTok .WHILE p with
    | .error e => .error e
    | .ok p1 =>
      match expectTok .OPEN_PAREN p1 with
      | .error e => .error e
      | .ok p2 =>
        match parseExpression fuel 0 p2 with
        | .error e => .error e
        | .ok (cond, p3) =>
          match expectTok .CLOSE_PAREN p3 with
          | .error e => .error e
          | .ok p4 =>
            match parseStatement fuel p4 with
            | .error e => .error e
            | .ok (body, p5) => .ok (.whileS cond body, p5)

/-- The parameter-list do-while loop of Parser::parse_function_declaration. -/
def parseParamsLoop (fuel : Nat) (p : Parser) (acc : List String) :
    Except String (List String × Parser) :=
  match fuel with
  | 0 => .error "out of fuel"
  | fuel + 1 =>
    if (currentToken p).type ≠ .IDENTIFIER then .error "Expected parameter name"
    else
      let acc := acc ++ [(currentToken p).value]
      let p1 := advanceP p
      if (currentToken p1).type = .COMMA then parseParamsLoop fuel (advanceP p1) acc
      else .ok (acc, p1)

/-- Parser::parse_function_declaration. -/
def parseFuncDecl (fuel : Nat) (p : Parser) : Except String (Stmt × Parser) :=
  match fuel with
  | 0 => .error "out of fuel"
  | fuel + 1 =>
    match expectTok .FUNC p with
    | .error e => .error e
    | .ok p1 =>
      if (currentToken p1).type ≠ .IDENTIFIER then
        .error "Expected function name after \x27func\x27"
      else
        let name := (currentToken p1).value
        let p2 := advanceP p1
        match expectTok .OPEN_PAREN p2 with
        | .error e => .error e
        | .ok p3 =>
          match
            (if (currentToken p3).type ≠ .CLOSE_PAREN then parseParamsLoop fuel p3 []
             else .ok ([], p3)) with
          | .error e => .error e
          | .ok (params, p4) =>
            match expectTok .CLOSE_PAREN p4 with
            | .error e => .error e
            | .ok p5 =>
              match parseStatement fuel p5 with
              | .error e => .error e
              | .ok (body, p6) => .ok (.funcDecl name params body, p6)

/-- Parser::parse_return_statement. -/
def parseReturnStmt (fuel : Nat) (p : Parser) : Except String (Stmt × Parser) :=
  match fuel with
  | 0 => .error "out of fuel"
  | fuel + 1 =>
    match expectTok .RET p with
    | .error e => .error e
    | .ok p1 =>
      if (currentToken p1).type ≠ .SEMICOLON then
        match parseExpression fuel 0 p1 with
        | .error e => .error e
        | .ok (v, p2) =>
          match expectTok .SEMICOLON p2 with
          | .error e => .error e
          | .ok p3 => .ok (.ret (some v), p3)
      else
        match expectTok .SEMICOLON p1 with
        | .error e => .error e
        | .ok p2 => .ok (.ret none, p2)

/-- The statement loop of Parser::parse_block_statement. -/
def parseBlockLoop (fuel : Nat) (p : Parser) (acc : List Stmt) :
    Except String (List Stmt × Parser) :=
  match fuel with
  | 0 => .error "out of fuel"
  | fuel + 1 =>
    if (currentToken p).type ≠ .CLOSE_CURLY ∧ p.pos < p.toks.length then
      match parseStatement fuel p with
      | .error e => .error e
      | .ok (s, p1) => parseBlockLoop fuel p1 (acc ++ [s])
    else .ok (acc, p)

/-- Parser::parse_block_statement. -/
def parseBlockStmt (fuel : Nat) (p : Parser) : Except String (Stmt × Parser) :=
  match fuel with
  | 0 => .error "out of fuel"
  | fuel + 1 =>
    match expectTok .OPEN_CURLY p with
    | .error e => .error e
    | .ok p1 =>
      match parseBlockLoop fuel p1 [] with
      | .error e => .error e
      | .ok (stmts, p2) =>
        match expectTok .CLOSE_CURLY p2 with
        | .error e => .error e
        | .ok p3 => .ok (.block stmts, p3)

/-- Parser::parse_expression_statement, with the one-token-lookahead
special case recognizing identifier = expr ; as an assignment. -/
def parseExprStatement (fuel : Nat) (p : Parser) : Except String (Stmt × Parser) :=
  match fuel with
  | 0 => .error "out of fuel"
  | fuel + 1 =>
    if (currentToken p).type = .IDENTIFIER ∧ (peekToken p 1).type = .EQUALS then
      let name := (currentToken p).value
      let p1 := advanceP (advanceP p)
      match parseExpression fuel 0 p1 with
      | .error e => .error e
      | .ok (v, p2) =>
        match expectTok .SEMICOLON p2 with
        | .error e => .error e
        | .ok p3 => .ok (.assign name v, p3)
    else
      match parseExpression fuel 0 p with
      | .error e => .error e
      | .ok (e, p1) =>
        match expectTok .SEMICOLON p1 with
        | .error e => .error e
        | .ok p2 => .ok (.exprStmt e, p2)

/-- Parser::parse_statement: dispatch on the leading token. -/
def parseStatement (fuel : Nat) (p : Parser) : Except String (Stmt × Parser) :=
  match fuel with
  | 0 => .error "out of fuel"
  | fuel + 1 =>
    match (currentToken p).type with
    | .VAR => parseVarDecl fuel p
    | .FUNC => parseFuncDecl fuel p
    | .IF => parseIfStmt fuel p
    | .WHILE => parseWhileStmt fuel p
    | .RET => parseReturnStmt fuel p
    | .OPEN_CURLY => parseBlockStmt fuel p
    | _ => parseExprStatement fuel p

/-- The statement loop of Parser::parse_program: skip stray semicolons,
collect statements until the tokens are exhausted. -/
def parseProgramLoop (fuel : Nat) (p : Parser) (acc : List Stmt) :
    Except String (List Stmt × Parser) :=
  match fuel with
  | 0 => .error "out of fuel"
  | fuel + 1 =>
    if p.pos < p.toks.length then
      let m := matchTok .SEMICOLON p
      if m.1 then parseProgramLoop fuel m.2 acc
      else
        match parseStatement fuel p with
        | .error e => .error e
        | .ok (s, p1) => parseProgramLoop fuel p1 (acc ++ [s])
    else .ok (acc, p)

end

/-- Parser::parse_program on a token list (a Program is its ordered list
of top-level statements). -/
def parseProgram (fuel : Nat) (toks : List Token) : Except String (List Stmt) :=
  match parseProgramLoop fuel ⟨toks, 0⟩ [] with
  | .error e => .error e
  | .ok (stmts, _) => .ok stmts

/-! ## Interpreter (src/interpreter.hpp) -/

/-- Lookup in the variables map (std::unordered_map::find). -/
def envGet (env : List (String × Value)) (k : String) : Option Value :=
  match env with
  | [] => none
  | (k', v) :: rest => if k' = k then some v else envGet rest k

/-- variables[k] = v (std::unordered_map::operator[] followed by
assignment): updates the existing entry or inserts a new one. -/
def envSet (env : List (String × Value)) (k : String) (v : Value) :
    List (String × Value) :=
  match env with
  | [] => [(k, v)]
  | (k', v') :: rest => if k' = k then (k, v) :: rest else (k', v') :: envSet rest k v

/-- struct UserFunction: parameter names and the body statement. -/
structure UserFunc where
  params : List String
  body : Stmt

def funcsGet (fs : List (String × UserFunc)) (k : String) : Option UserFunc :=
  match fs with
  | [] => none
  | (k', f) :: rest => if k' = k then some f else funcsGet rest k

/-- user_functions.emplace(name, f): inserts only when the name is absent
(std::unordered_map::emplace never overwrites). -/
def funcsEmplace (fs : List (String × UserFunc)) (k : String) (f : UserFunc) :
    List (String × UserFunc) :=
  match funcsGet fs k with
  | some _ => fs
  | none => (k, f) :: fs

/-- The interpreter state: the variables map, the user-function table, and
the ordered output stream written by print and by execute_program. -/
structure Interp where
  vars : List (String × Value)
  funcs : List (String × UserFunc)
  out : List String

/-- The parameter-binding loop of Interpreter::call_user_function:
variables[parameters[i]] = args[i] on top of the current map. -/
def bindParams (env : List (String × Value)) (ps : List String)
    (args : List Value) : List (String × Value) :=
  match ps, args with
  | p :: ps', a :: args' => bindParams (envSet env p a) ps' args'
  | _, _ => env

/-- The operator symbol used in the invalid-operand messages of
Interpreter::evaluate_binary_expression. -/
def binOpSym : TokenType → String
  | .PLUS => "+"
  | .MINUS => "-"
  | .STAR => "*"
  | .SLASH => "/"
  | .CARET => "^"
  | _ => ""

/-- The switch of Interpreter::evaluate_binary_expression, applied to the
two already-evaluated operand values.  std::visit with the
is_arithmetic_v constraint accepts int, float and bool operands (bool is
arithmetic in C++ and converts to 0 or 1); strings and arrays fail. -/
def applyBinary (op : TokenType) (l r : Value) : Except String Value :=
  match op with
  | .PLUS =>
    match arithOf l, arithOf r with
    | some a, some b => .ok (numAdd a b)
    | _, _ => .error "Invalid operands for +"
  | .MINUS =>
    match arithOf l, arithOf r with
    | some a, some b => .ok (numSub a b)
    | _, _ => .error "Invalid operands for -"
  | .STAR =>
    match arithOf l, arithOf r with
    | some a, some b => .ok (numMul a b)
    | _, _ => .error "Invalid operands for *"
  | .SLASH =>
    match arithOf l, arithOf r with
    | some a, some b =>
      if numIsZero b then .error "Division by zero" else .ok (numDiv a b)
    | _, _ => .error "Invalid operands for /"
  | .CARET =>
    match arithOf l, arithOf r with
    | some a, some b => .ok (.vFloat (ratPow (numToRat a) (numToRat b)))
    | _, _ => .error "Invalid operands for ^"
  | .EQUALS => .error "Assignment not supported in expressions"
  | _ => .error "Unknown binary operator"

/-- The switch of Interpreter::evaluate_unary_expression (unary + and -
promote a bool operand to int, like C++). -/
def applyUnary (op : TokenType) (v : Value) : Except String Value :=
  match op with
  | .MINUS =>
    match arithOf v with
    | some (.inl n) => .ok (.vInt (-n))
    | some (.inr q) => .ok (.vFloat (-q))
    | none => .error "Invalid operand for unary -"
  | .PLUS =>
    match arithOf v with
    | some (.inl n) => .ok (.vInt n)
    | some (.inr q) => .ok (.vFloat q)
    | none => .error "Invalid operand for unary +"
  | _ => .error "Unknown unary operator"

/-- The truthiness coercion of the IfStatement branch of
Interpreter::execute_statement: bool passes through, arithmetic (int or
float) is truthy iff non-zero, text and arrays are truthy iff non-empty;
the variant set is closed, so the final visit fallback (false) is
unreachable. -/
def truthy : Value → Bool
  | .vBool b => b
  | .vInt n => n ≠ 0
  | .vFloat q => q ≠ 0
  | .vStr s => !s.isEmpty
  | .vArr a => !a.isEmpty

/-- static_cast to int of an arithmetic index value (float truncates
toward zero). -/
def castToIntC : Value → Option Int
  | .vInt n => some n
  | .vBool b => some (if b then 1 else 0)
  | .vFloat q => some (if 0 ≤ q then ⌊q⌋ else ⌈q⌉)
  | _ => none

/-- FunctionRegistry::call_function: dispatch to the registered builtin
lambdas; print appends a line to the output stream and returns Int 0. -/
def callBuiltin (st : Interp) (name : String) (args : List Value) :
    Except String (Value × Interp) :=
  if name = "print" then
    match args with
    | [v] => .ok (.vInt 0, { st with out := st.out ++ [valueToString v] })
    | _ => .error "print() expects exactly 1 argument"
  else if name = "round" then (roundBuiltin args).map fun v => (v, st)
  else if name = "floor" then (floorBuiltin args).map fun v => (v, st)
  else if name = "ceil" then (ceilBuiltin args).map fun v => (v, st)
  else if name = "abs" then (absBuiltin args).map fun v => (v, st)
  else if name = "min" then (minBuiltin args).map fun v => (v, st)
  else if name = "max" then (maxBuiltin args).map fun v => (v, st)
  else if name = "sqrt" then (sqrtBuiltin args).map fun v => (v, st)
  else if name = "pow" then (powBuiltin args).map fun v => (v, st)
  else if name = "len" then (lenBuiltin args).map fun v => (v, st)
  else if name = "frag" then (fragBuiltin args).map fun v => (v, st)
  else .error ("Unknown function: " ++ name)

mutual

/-- Interpreter::evaluate_expression.  Fuel is decremented on entry; the
source recursion is unbounded through user-function calls. -/
def evalExpr (fuel : Nat) (st : Interp) (e : Expr) :
    Except String (Value × Interp) :=
  match fuel with
  | 0 => .error "out of fuel"
  | fuel + 1 =>
    match e with
    | .intLit n => .ok (.vInt n, st)
    | .floatLit q => .ok (.vFloat q, st)
    | .strLit s => .ok (.vStr s, st)
    | .boolLit b => .ok (.vBool b, st)
    | .ident name =>
      match envGet st.vars name with
      | none => .error ("Undefined variable: " ++ name)
      | some v => .ok (v, st)
    | .binary l op r =>
      match evalExpr fuel st l with
      | .error e => .error e
      | .ok (lv, st1) =>
        match evalExpr fuel st1 r with
        | .error e => .error e
        | .ok (rv, st2) =>
          match applyBinary op lv rv with
          | .error e => .error e
          | .ok v => .ok (v, st2)
    | .unary op inner =>
      match evalExpr fuel st inner with
      | .error e => .error e
      | .ok (v, st1) =>
        match applyUnary op v with
        | .error e => .error e
        | .ok w => .ok (w, st1)
    | .paren inner => evalExpr fuel st inner
    | .call name args =>
      match evalArgs fuel st args with
      | .error e => .error e
      | .ok (vs, st1) =>
        match funcsGet st1.funcs name with
        | some fn => callUser fuel st1 fn vs
        | none => callBuiltin st1 name vs
    | .roomLit elems =>
      match evalArgs fuel st elems with
      | .error e => .error e
      | .ok (vs, st1) => .ok (.vArr vs, st1)
    | .roomAccess name idx =>
      match envGet st.vars name with
      | none => .error ("Undefined room: " ++ name)
      | some v0 =>
        match v0 with
        | .vArr room0 =>
          match evalExpr fuel st idx with
          | .error e => .error e
          | .ok (iv, st1) =>
            match castToIntC iv with
            | none => .error "room index must be numeric"
            | some i =>
              -- the source re-reads variables[name] here; expression
              -- evaluation cannot remove or retype the binding, so the
              -- fallback to the pre-index value room0 is unreachable
              let room := match envGet st1.vars name with
                          | some (.vArr r) => r
                          | _ => room0
              if i < 0 ∨ i ≥ (room.length : Int) then
                .error "room index out of bounds"
              else .ok (room.getD i.toNat (.vInt 0), st1)
        | _ => .error ("Not a room: " ++ name)

/-- The argument-evaluation loop of Interpreter::evaluate_function_call
(also used for RoomLiteral elements), left to right. -/
def evalArgs (fuel : Nat) (st : Interp) (es : List Expr) :
    Except String (List Value × Interp) :=
  match fuel with
  | 0 => .error "out of fuel"
  | fuel + 1 =>
    match es with
    | [] => .ok ([], st)
    | e :: rest =>
      match evalExpr fuel st e with
      | .error err => .error err
      | .ok (v, st1) =>
        match evalArgs fuel st1 rest with
        | .error err => .error err
        | .ok (vs, st2) => .ok (v :: vs, st2)

/-- Interpreter::call_user_function: checks arity, saves the whole
variables map, binds parameters ON TOP of the existing map (the source
never clears it), executes the body catching the return transfer, then
restores the saved variables map. -/
def callUser (fuel : Nat) (st : Interp) (fn : UserFunc) (args : List Value) :
    Except String (Value × Interp) :=
  match fuel with
  | 0 => .error "out of fuel"
  | fuel + 1 =>
    if args.length ≠ fn.params.length then
      .error ("Function expects " ++ toString fn.params.length ++
              " arguments, got " ++ toString args.length)
    else
      match execStmt fuel { st with vars := bindParams st.vars fn.params args } fn.body with
      | .error e => .error e
      | .ok (flow, st1) => .ok (flow.getD (.vInt 0), { st1 with vars := st.vars })

/-- Interpreter::execute_statement.  The result flow is none for normal
completion and some v for a raised ReturnException carrying v.  The
dynamic_cast chain of the source has no branch for WhileStatement, which
therefore falls through to the final "Unknown statement type" throw. -/
def execStmt (fuel : Nat) (st : Interp) (s : Stmt) :
    Except String (Option Value × Interp) :=
  match fuel with
  | 0 => .error "out of fuel"
  | fuel + 1 =>
    match s with
    | .varDecl name init =>
      match init with
      | none => .ok (none, { st with vars := envSet st.vars name (.vInt 0) })
      | some e =>
        match evalExpr fuel st e with
        | .error err => .error err
        | .ok (v, st1) => .ok (none, { st1 with vars := envSet st1.vars name v })
    | .funcDecl name params body =>
      .ok (none, { st with funcs := funcsEmplace st.funcs name ⟨params, body⟩ })
    | .assign name e =>
      match evalExpr fuel st e with
      | .error err => .error err
      | .ok (v, st1) => .ok (none, { st1 with vars := envSet st1.vars name v })
    | .exprStmt e =>
      match evalExpr fuel st e with
      | .error err => .error err
      | .ok (_, st1) => .ok (none, st1)
    | .ifS cond thenS elseS =>
      match evalExpr fuel st cond with
      | .error err => .error err
      | .ok (cv, st1) =>
        if truthy cv then execStmt fuel st1 thenS
        else
          match elseS with
          | some s2 => execStmt fuel st1 s2
          | none => .ok (none, st1)
    | .block stmts => execStmts fuel st stmts
    | .ret value =>
      match value with
      | none => .ok (some (.vInt 0), st)
      | some e =>
        match evalExpr fuel st e with
        | .error err => .error err
        | .ok (v, st1) => .ok (some v, st1)
    | .roomAssign name idx value =>
      match envGet st.vars name with
      | none => .error ("Undefined room: " ++ name)
      | some _ =>
        match evalExpr fuel st idx with
        | .error err => .error err
        | .ok (iv, st1) =>
          match castToIntC iv with
          | none => .error "Room index must be numeric"
          | some i =>
            match evalExpr fuel st1 value with
            | .error err => .error err
            | .ok (nv, st2) =>
              match envGet st2.vars name with
              | some (.vArr room) =>
                if i < 0 ∨ i ≥ (room.length : Int) then
                  .error "Room index out of bounds"
                else
                  .ok (none, { st2 with vars := envSet st2.vars name (.vArr (room.set i.toNat nv)) })
              | _ => .error ("Variable is not a room: " ++ name)
    | .whileS _ _ => .error "Unknown statement type"

/-- The statement loop of BlockStatement execution (and of
execute_program): a raised return aborts the remaining statements. -/
def execStmts (fuel : Nat) (st : Interp) (ss : List Stmt) :
    Except String (Option Value × Interp) :=
  match fuel with
  | 0 => .error "out of fuel"
  | fuel + 1 =>
    match ss with
    | [] => .ok (none, st)
    | s :: rest =>
      match execStmt fuel st s with
      | .error err => .error err
      | .ok (none, st1) => execStmts fuel st1 rest
      | .ok (some v, st1) => .ok (some v, st1)

end

/-- The initial interpreter state (empty maps, no output). -/
def initInterp : Interp := ⟨[], [], []⟩

/-- Interpreter::execute_program: run the top-level statements; a
ReturnException caught at the top level prints the exit message. -/
def runProgram (fuel : Nat) (prog : List Stmt) : Except String Interp :=
  match execStmts fuel initInterp prog with
  | .error e => .error e
  | .ok (none, st) => .ok st
  | .ok (some v, st) =>
    .ok { st with out := st.out ++ ["Program exited with return value: " ++ valueToString v] }

/-- The whole pipeline of main.cpp: lexer, parser, interpreter. -/
def runSource (fuel : Nat) (src : String) : Except String Interp :=
  match parseProgram fuel (lexer src) with
  | .error e => .error e
  | .ok prog => runProgram fuel prog

/-! ## Claim theorems -/

/-- Claim C1: the claim states that parsing and evaluating the source
expression 2 + 3 * 4 yields Int 14, the climbing scheme making * (binding
power 3) bind tighter than + (binding power 2).  The code disagrees: the
climbing loop breaks when the binding power does not STRICTLY exceed
min_precedence and recurses at precedence + 1 for the right-hand side, so
after + the right recursion (at min 3) refuses * (power 3 ≤ 3); the outer
loop, still at min 0, then consumes *, producing ((2 + 3) * 4), which
evaluates to Int 20.  This theorem evaluates the code at the failing
input: the token sequence, the parsed tree, the evaluated value, the
whole-pipeline output, and the binding powers the claim quotes. -/
theorem c1_two_plus_three_times_four_evaluates_to_twenty :
    lexer "2 + 3 * 4" =
      [⟨.INT, "2"⟩, ⟨.PLUS, "+"⟩, ⟨.INT, "3"⟩, ⟨.STAR, "*"⟩, ⟨.INT, "4"⟩]
    ∧ (parseExpression 50 0 ⟨lexer "2 + 3 * 4", 0⟩).map Prod.fst =
      .ok (.binary (.binary (.intLit 2) .PLUS (.intLit 3)) .STAR (.intLit 4))
    ∧ (evalExpr 50 initInterp
        (.binary (.binary (.intLit 2) .PLUS (.intLit 3)) .STAR (.intLit 4))).map Prod.fst =
      .ok (.vInt 20)
    ∧ (runSource 100 "ret 2 + 3 * 4").map Interp.out =
      .ok ["Program exited with return value: 20"]
    ∧ getBindingPower .STAR = 3 ∧ getBindingPower .PLUS = 2 :=
  ⟨rfl, rfl, rfl, rfl, rfl, rfl⟩

/-- Claim C2, counterexample: the claim states that a Bool operand of
binary + makes evaluation fail with InvalidOperandType.  In the code
std::is_arithmetic_v is true for bool, so true + 1 evaluates successfully
to Int 2 instead of failing. -/
theorem c2_counterexample_bool_operand_accepted :
    evalExpr 10 initInterp (.binary (.boolLit true) .PLUS (.intLit 1)) =
      .ok (.vInt 2, initInterp)
    ∧ applyBinary .PLUS (.vBool true) (.vInt 1) = .ok (.vInt 2) :=
  ⟨rfl, rfl⟩

/-- Claim C3, counterexample: the claim states that a user-function body
cannot read caller variables, that identical calls in different caller
environments return the same value, and that reading a non-parameter
caller variable fails with UndefinedVariable.  The code only LAYERS the
parameter bindings on top of the caller map (call_user_function never
clears it), so the zero-parameter function with body ret y returns the
caller's y: Int 1 in one caller environment and Int 2 in the other. -/
theorem c3_counterexample_body_reads_caller_variable :
    callUser 10 ⟨[("y", .vInt 1)], [], []⟩ ⟨[], .ret (some (.ident "y"))⟩ [] =
      .ok (.vInt 1, ⟨[("y", .vInt 1)], [], []⟩)
    ∧ callUser 10 ⟨[("y", .vInt 2)], [], []⟩ ⟨[], .ret (some (.ident "y"))⟩ [] =
      .ok (.vInt 2, ⟨[("y", .vInt 2)], [], []⟩)
    ∧ Value.vInt 1 ≠ Value.vInt 2 :=
  ⟨rfl, rfl, by simp⟩

/-- Claim C5, counterexample: the claim states that executing an
assignment whose target name is unbound fails with UndefinedVariable.
The code writes through operator[] with no existence check, so assigning
to the unbound name x in the empty environment succeeds and silently
creates the binding. -/
theorem c5_counterexample_assignment_creates_binding :
    execStmt 10 initInterp (.assign "x" (.intLit 5)) =
      .ok (none, ⟨[("x", .vInt 5)], [], []⟩) := rfl

/-- Claim C6: the claim states that the tokenizer scans a single-quoted
char literal and emits one CHAR token spanning the quotes.  In the code
the quote character is listed in the strchr set of the single-character
branch (line 49) but the switch has no case for it, so each quote is
silently consumed there and the char-literal branch (lines 79-85) is dead
code: the input consisting of quote, a, quote lexes to a single
IDENTIFIER token a.  The dedicated (unreachable) char-literal branch and
the CHAR token kind show the scan was the intent, so this is a slip in
the code. -/
theorem c6_char_literal_never_scanned :
    lexer (String.mk [squote, 'a', squote]) = [⟨.IDENTIFIER, "a"⟩]
    ∧ squote ∈ opChars
    ∧ charTokenOf squote = none :=
  ⟨rfl, by decide, rfl⟩

/-- Claim C7, counterexample: the claim states that the condition of every
while is converted by the truthiness coercion (so a falsy condition would
just skip the body).  The dynamic_cast chain of execute_statement has no
branch for WhileStatement, so executing any while statement throws
Unknown statement type without ever evaluating its condition. -/
theorem c7_counterexample_while_not_executable :
    execStmt 10 initInterp (.whileS (.boolLit false) (.block [])) =
      .error "Unknown statement type" := rfl

/-- Claim C4: after a user-function call returns (whether the body ran to
completion or raised the return transfer), the caller's variables map is
exactly the pre-call map: call_user_function saves the whole map before
binding parameters and restores it verbatim on both completion paths, so
assignments and declarations inside the body leave no binding behind. -/
theorem c4_call_restores_caller_variables (fuel : Nat) (st : Interp)
    (fn : UserFunc) (args : List Value) (v : Value) (st' : Interp)
    (h : callUser fuel st fn args = .ok (v, st')) : st'.vars = st.vars := by
  cases fuel with
  | zero => simp [callUser] at h
  | succ n =>
    simp only [callUser] at h
    split at h
    · simp at h
    · cases hx : execStmt n { st with vars := bindParams st.vars fn.params args } fn.body with
      | error e => rw [hx] at h; simp at h
      | ok pr =>
        rw [hx] at h
        obtain ⟨flow, st1⟩ := pr
        simp at h
        rw [← h.2]

/-- Claim C4 witness: a function that assigns 99 to its parameter x leaves
the caller's binding x = 1 untouched. -/
theorem c4_call_restores_caller_variables_witness :
    (Interp.mk [("x", Value.vInt 1)] [] []).vars = (Interp.mk [("x", Value.vInt 1)] [] []).vars :=
  c4_call_restores_caller_variables 10 ⟨[("x", .vInt 1)], [], []⟩
    ⟨["x"], .assign "x" (.intLit 99)⟩ [.vInt 5] (.vInt 0)
    ⟨[("x", .vInt 1)], [], []⟩ rfl

/-- Claim C5, amended: executing name = expr never checks whether name is
bound; if the right-hand side evaluates to v, the assignment succeeds and
writes v through the flat map (updating the binding or creating it). -/
theorem c5_assignment_writes_through (fuel : Nat) (st : Interp)
    (name : String) (e : Expr) (v : Value) (st1 : Interp)
    (h : evalExpr fuel st e = .ok (v, st1)) :
    execStmt (fuel + 1) st (.assign name e) =
      .ok (none, { st1 with vars := envSet st1.vars name v }) := by
  simp [execStmt, h]

/-- Claim C5 witness: assigning 5 to the unbound x in the empty
environment creates the binding. -/
theorem c5_assignment_writes_through_witness :
    execStmt 2 initInterp (.assign "x" (.intLit 5)) =
      .ok (none, { initInterp with vars := envSet initInterp.vars "x" (.vInt 5) }) :=
  c5_assignment_writes_through 1 initInterp "x" (.intLit 5) (.vInt 5) initInterp rfl

/-- Claim C3, amended: during a user-function call the environment is NOT
replaced by a fresh binding of parameters to argument values; the
parameters are bound ON TOP of the caller's variables map, which stays
visible to the body, so reading a non-parameter caller variable yields
the caller's value (not UndefinedVariable), and calls in different caller
environments may differ.  The pre-call variables map is still restored
when the call returns.  Conjunct one characterizes call_user_function on
a matching argument list; conjunct two shows a zero-parameter function
whose body is ret y returning the caller's y. -/
theorem c3_parameters_bound_on_top_of_caller_env :
    (∀ (fuel : Nat) (st : Interp) (fn : UserFunc) (args : List Value),
       args.length = fn.params.length →
       callUser (fuel + 1) st fn args =
         match execStmt fuel { st with vars := bindParams st.vars fn.params args } fn.body with
         | .error e => .error e
         | .ok (flow, st1) => .ok (flow.getD (.vInt 0), { st1 with vars := st.vars }))
    ∧ (∀ (fuel : Nat) (st : Interp) (y : String) (v : Value),
       envGet st.vars y = some v →
       callUser (fuel + 3) st ⟨[], .ret (some (.ident y))⟩ [] = .ok (v, st)) := by
  constructor
  · intro fuel st fn args h
    simp [callUser, h]
  · intro fuel st y v h
    simp [callUser, execStmt, evalExpr, bindParams, h]

/-- Claim C3 witness: instantiating both conjuncts at concrete inputs. -/
theorem c3_parameters_bound_on_top_of_caller_env_witness :
    (callUser 4 ⟨[("y", .vInt 7)], [], []⟩ ⟨[], .ret (some (.intLit 3))⟩ [] =
      match execStmt 3 { Interp.mk [("y", .vInt 7)] [] [] with
                         vars := bindParams [("y", .vInt 7)] [] [] }
              (.ret (some (.intLit 3))) with
      | .error e => .error e
      | .ok (flow, st1) =>
        .ok (flow.getD (.vInt 0), { st1 with vars := [("y", .vInt 7)] }))
    ∧ callUser 4 ⟨[("y", .vInt 7)], [], []⟩ ⟨[], .ret (some (.ident "y"))⟩ [] =
      .ok (.vInt 7, ⟨[("y", .vInt 7)], [], []⟩) :=
  ⟨c3_parameters_bound_on_top_of_caller_env.1 3 ⟨[("y", .vInt 7)], [], []⟩
      ⟨[], .ret (some (.intLit 3))⟩ [] rfl,
   c3_parameters_bound_on_top_of_caller_env.2 1 ⟨[("y", .vInt 7)], [], []⟩ "y" (.vInt 7) rfl⟩

/-- Claim C2, amended: for the arithmetic operators + - * /, an operand
that is Text or Array (arithOf gives none) makes evaluation fail with the
invalid-operands error, but a Bool operand is ACCEPTED (C++
std::is_arithmetic_v is true for bool, converting it to 0 or 1); when
both operands are arithmetic the result follows the usual promotion: both
integral (Int or Bool) gives an Int result, any Float operand gives a
Float result; division additionally fails with Division by zero when the
divisor compares equal to 0 before the quotient is formed. -/
theorem c2_arithmetic_binop_typing :
    (∀ op, op ∈ [TokenType.PLUS, .MINUS, .STAR, .SLASH] → ∀ l r : Value,
       (arithOf l = none ∨ arithOf r = none) →
       applyBinary op l r = .error ("Invalid operands for " ++ binOpSym op))
    ∧ (∀ op, op ∈ [TokenType.PLUS, .MINUS, .STAR, .SLASH] →
       ∀ (l r : Value) (a b : Int ⊕ Rat),
       arithOf l = some a → arithOf r = some b →
       ¬(op = .SLASH ∧ numIsZero b = true) →
       ∃ v, applyBinary op l r = .ok v ∧
         ((a.isLeft ∧ b.isLeft → ∃ n : Int, v = .vInt n) ∧
          (a.isRight ∨ b.isRight → ∃ q : Rat, v = .vFloat q)))
    ∧ (∀ (l r : Value) (a b : Int ⊕ Rat),
       arithOf l = some a → arithOf r = some b → numIsZero b = true →
       applyBinary .SLASH l r = .error "Division by zero")
    ∧ (∀ b : Bool, arithOf (.vBool b) = some (.inl (if b then 1 else 0)))
    ∧ (∀ s : String, arithOf (.vStr s) = none)
    ∧ (∀ a : List Value, arithOf (.vArr a) = none) := by
  refine ⟨?_, ?_, ?_, fun _ => rfl, fun _ => rfl, fun _ => rfl⟩
  · intro op hop l r h
    simp only [List.mem_cons, List.mem_singleton, List.not_mem_nil, or_false] at hop
    cases hl : arithOf l with
    | none =>
      rcases hop with rfl | rfl | rfl | rfl <;> simp [applyBinary, binOpSym, hl]
    | some a =>
      rcases h with h | h
      · rw [hl] at h; cases h
      · rcases hop with rfl | rfl | rfl | rfl <;> simp [applyBinary, binOpSym, hl, h]
  · intro op hop l r a b hl hr hnz
    simp only [List.mem_cons, List.mem_singleton, List.not_mem_nil, or_false] at hop
    rcases hop with rfl | rfl | rfl | rfl
    · refine ⟨numAdd a b, by simp [applyBinary, hl, hr], ?_, ?_⟩ <;>
        rcases a with a | a <;> rcases b with b | b <;> simp [numAdd]
    · refine ⟨numSub a b, by simp [applyBinary, hl, hr], ?_, ?_⟩ <;>
        rcases a with a | a <;> rcases b with b | b <;> simp [numSub]
    · refine ⟨numMul a b, by simp [applyBinary, hl, hr], ?_, ?_⟩ <;>
        rcases a with a | a <;> rcases b with b | b <;> simp [numMul]
    · have hb : numIsZero b = false := by
        simpa using hnz
      refine ⟨numDiv a b, by simp [applyBinary, hl, hr, hb], ?_, ?_⟩ <;>
        rcases a with a | a <;> rcases b with b | b <;> simp [numDiv]
  · intro l r a b hl hr hz
    simp [applyBinary, hl, hr, hz]

/-- Claim C2 witness: a Text operand fails for +, true + 1 succeeds with
an Int result, and 1 / 0 is Division by zero. -/
theorem c2_arithmetic_binop_typing_witness :
    applyBinary .PLUS (.vStr "") (.vInt 0) = .error ("Invalid operands for " ++ binOpSym .PLUS)
    ∧ (∃ v, applyBinary .PLUS (.vBool true) (.vInt 1) = .ok v ∧
        (((Sum.inl 1 : Int ⊕ Rat).isLeft ∧ (Sum.inl 1 : Int ⊕ Rat).isLeft → ∃ n : Int, v = .vInt n) ∧
         ((Sum.inl 1 : Int ⊕ Rat).isRight ∨ (Sum.inl 1 : Int ⊕ Rat).isRight → ∃ q : Rat, v = .vFloat q)))
    ∧ applyBinary .SLASH (.vInt 1) (.vInt 0) = .error "Division by zero" :=
  ⟨c2_arithmetic_binop_typing.1 .PLUS (by simp) (.vStr "") (.vInt 0) (.inl rfl),
   c2_arithmetic_binop_typing.2.1 .PLUS (by simp) (.vBool true) (.vInt 1)
     (.inl 1) (.inl 1) rfl rfl (by simp),
   c2_arithmetic_binop_typing.2.2.1 (.vInt 1) (.vInt 0) (.inl 1) (.inl 0) rfl rfl rfl⟩

/-- Claim C7, amended: the truthiness coercion governs the condition of if
statements only (there is no while branch in execute_statement; executing
a while statement fails before its condition is evaluated, and the lexer
does not even produce the WHILE token).  Conjunct one shows the if branch
routes the evaluated condition through the coercion; the remaining
conjuncts pin the coercion down on every variant and run the quoted
example programs: if with the empty string prints 0, the empty array is
falsy, a non-empty array holding a falsy element is truthy. -/
theorem c7_if_condition_truthiness :
    (∀ (fuel : Nat) (st : Interp) (cond : Expr) (thenS : Stmt) (elseS : Option Stmt),
       execStmt (fuel + 1) st (.ifS cond thenS elseS) =
         match evalExpr fuel st cond with
         | .error err => .error err
         | .ok (cv, st1) =>
           if truthy cv then execStmt fuel st1 thenS
           else
             match elseS with
             | some s2 => execStmt fuel st1 s2
             | none => .ok (none, st1))
    ∧ (∀ b : Bool, truthy (.vBool b) = b)
    ∧ (∀ n : Int, truthy (.vInt n) = decide (n ≠ 0))
    ∧ (∀ q : Rat, truthy (.vFloat q) = decide (q ≠ 0))
    ∧ (∀ s : String, truthy (.vStr s) = !s.isEmpty)
    ∧ (∀ a : List Value, truthy (.vArr a) = !a.isEmpty)
    ∧ (runSource 100 "if (\"\") then print(1); else print(0);").map Interp.out = .ok ["0"]
    ∧ truthy (.vStr "") = false
    ∧ truthy (.vArr []) = false
    ∧ truthy (.vArr [.vInt 0]) = true :=
  ⟨fun _ _ _ _ _ => rfl, fun _ => rfl, fun _ => rfl, fun _ => rfl, fun _ => rfl,
   fun _ => rfl, rfl, rfl, rfl, rfl⟩

/-- Claim C8: frag(array, start, end) fails unless the first argument is
an Array, both bounds are Int values, and 0 ≤ start < end ≤ length (so
equal bounds are rejected); on valid bounds it returns a new Array holding
the elements of the half-open range [start, end), a copy sharing nothing
with the input (the source constructs a fresh std::vector from the
iterator range). -/
theorem c8_frag_builtin_contract :
    (∀ (a : List Value) (s e : Int),
       fragBuiltin [.vArr a, .vInt s, .vInt e] =
         if 0 ≤ s ∧ s < e ∧ e ≤ (a.length : Int)
         then .ok (.vArr ((a.drop s.toNat).take (e - s).toNat))
         else .error "frag() requires valid start and end indices")
    ∧ (∀ (a : List Value) (i : Int),
       fragBuiltin [.vArr a, .vInt i, .vInt i] =
         .error "frag() requires valid start and end indices")
    ∧ (∀ v1 v2 v3 : Value, (∀ xs, v1 ≠ .vArr xs) →
       fragBuiltin [v1, v2, v3] = .error "frag() requires array as first argument")
    ∧ (∀ (a : List Value) (v2 v3 : Value),
       (∀ n : Int, v2 ≠ .vInt n) ∨ (∀ n : Int, v3 ≠ .vInt n) →
       fragBuiltin [.vArr a, v2, v3] =
         .error "frag() requires integers as second and third arguments")
    ∧ (∀ args : List Value, args.length ≠ 3 →
       fragBuiltin args = .error "frag() expects exactly 3 arguments") := by
  refine ⟨?_, ?_, ?_, ?_, ?_⟩
  · intro a s e
    simp only [fragBuiltin]
    by_cases h : 0 ≤ s ∧ s < e ∧ e ≤ (a.length : Int)
    · rw [if_neg (by omega), if_pos h]
    · rw [if_pos (by omega), if_neg h]
  · intro a i
    simp only [fragBuiltin]
    rw [if_pos (by omega)]
  · intro v1 v2 v3 h
    cases v1 with
    | vArr xs => exact absurd rfl (h xs)
    | vInt n => rfl
    | vFloat q => rfl
    | vStr s => rfl
    | vBool b => rfl
  · intro a v2 v3 h
    cases v2 <;> cases v3 <;>
      first
      | rfl
      | (rcases h with h | h <;> exact absurd rfl (h _))
  · intro args h
    rcases args with _ | ⟨a, _ | ⟨b, _ | ⟨c, _ | ⟨d, rest⟩⟩⟩⟩
    · rfl
    · rfl
    · rfl
    · exact absurd rfl h
    · rfl

/-- Claim C8 witness: a valid slice, equal bounds rejected, a non-array
first argument, a Bool bound, and a wrong arity, all at concrete inputs. -/
theorem c8_frag_builtin_contract_witness :
    fragBuiltin [.vArr [.vInt 1, .vInt 2, .vInt 3], .vInt 1, .vInt 3] =
      (if 0 ≤ (1 : Int) ∧ (1 : Int) < 3 ∧ (3 : Int) ≤ (([Value.vInt 1, .vInt 2, .vInt 3].length : Int))
       then .ok (.vArr (([Value.vInt 1, .vInt 2, .vInt 3].drop (1 : Int).toNat).take ((3 : Int) - 1).toNat))
       else .error "frag() requires valid start and end indices")
    ∧ fragBuiltin [.vArr [.vInt 1], .vInt 1, .vInt 1] =
        .error "frag() requires valid start and end indices"
    ∧ fragBuiltin [.vInt 0, .vInt 0, .vInt 1] = .error "frag() requires array as first argument"
    ∧ fragBuiltin [.vArr [], .vBool true, .vInt 1] =
        .error "frag() requires integers as second and third arguments"
    ∧ fragBuiltin [] = .error "frag() expects exactly 3 arguments" :=
  ⟨c8_frag_builtin_contract.1 [.vInt 1, .vInt 2, .vInt 3] 1 3,
   c8_frag_builtin_contract.2.1 [.vInt 1] 1,
   c8_frag_builtin_contract.2.2.1 (.vInt 0) (.vInt 0) (.vInt 1) (fun xs => by simp),
   c8_frag_builtin_contract.2.2.2.1 [] (.vBool true) (.vInt 1) (.inl (fun n => by simp)),
   c8_frag_builtin_contract.2.2.2.2 [] (by decide)⟩

/-- Claim C9: the tokenizer is a total function (lexGo and lexer are total
Lean functions, so every input yields a finite token list and no lexical
error exists), and a character recognized by none of the branches
(whitespace, the operator set, the double quote, the single quote, digit,
identifier start) is silently skipped: it produces no token and scanning
continues with the rest, both for the loop body at any fuel and for the
whole tokenizer. -/
theorem c9_lexer_skips_unrecognized_characters :
    (∀ (n : Nat) (c : Char) (cs : List Char),
       isSpaceC c = false → c ∉ opChars → c ≠ dquote → c ≠ squote →
       c.isDigit = false → c.isAlpha = false → c ≠ '_' →
       lexGo (n + 1) (c :: cs) = lexGo n cs)
    ∧ (∀ (c : Char) (cs : List Char),
       isSpaceC c = false → c ∉ opChars → c ≠ dquote → c ≠ squote →
       c.isDigit = false → c.isAlpha = false → c ≠ '_' →
       lexer (String.mk (c :: cs)) = lexer (String.mk cs)) := by
  have skip : ∀ (n : Nat) (c : Char) (cs : List Char),
      isSpaceC c = false → c ∉ opChars → c ≠ dquote → c ≠ squote →
      c.isDigit = false → c.isAlpha = false → c ≠ '_' →
      lexGo (n + 1) (c :: cs) = lexGo n cs := by
    intro n c cs h1 h2 h3 h4 h5 h6 h7
    simp [lexGo, h1, h2, h3, h4, h5, h6, h7]
  refine ⟨skip, ?_⟩
  intro c cs h1 h2 h3 h4 h5 h6 h7
  show lexGo (String.mk (c :: cs)).toList.length (String.mk (c :: cs)).toList =
    lexGo (String.mk cs).toList.length (String.mk cs).toList
  have : (String.mk (c :: cs)).toList = c :: cs := rfl
  rw [this]
  have : (String.mk cs).toList = cs := rfl
  rw [this, List.length_cons]
  exact skip cs.length c cs h1 h2 h3 h4 h5 h6 h7

/-- Claim C9 witness: the at-sign is in no lexical class and is skipped. -/
theorem c9_lexer_skips_unrecognized_characters_witness :
    lexer (String.mk ['@', '1']) = lexer (String.mk ['1']) :=
  c9_lexer_skips_unrecognized_characters.2 '@' ['1']
    (by decide) (by decide) (by decide) (by decide) (by decide) (by decide) (by decide)

/-- Claim C10: reading past the end of the token sequence yields the
synthetic SEMICOLON token with empty text, so expect(SEMICOLON) succeeds
at end of input (and only SEMICOLON does: expecting any other type there
fails with the ParseError naming enum value 31, the SEMICOLON index);
hence the programs ret 5 and var x = 5, lacking their terminating
semicolon at end of input, parse successfully. -/
theorem c10_end_of_input_synthetic_semicolon :
    (∀ p : Parser, p.toks.length ≤ p.pos → currentToken p = ⟨.SEMICOLON, ""⟩)
    ∧ (∀ p : Parser, p.toks.length ≤ p.pos → expectTok .SEMICOLON p = .ok p)
    ∧ (∀ (t : TokenType) (p : Parser), p.toks.length ≤ p.pos → t ≠ .SEMICOLON →
       expectTok t p = .error ("Expected token type " ++ toString (tokenTypeIdx t) ++
                               " but got " ++ toString (tokenTypeIdx TokenType.SEMICOLON)))
    ∧ parseProgram 50 (lexer "ret 5") = .ok [.ret (some (.intLit 5))]
    ∧ parseProgram 50 (lexer "var x = 5") = .ok [.varDecl "x" (some (.intLit 5))] := by
  have hcur : ∀ p : Parser, p.toks.length ≤ p.pos → currentToken p = ⟨.SEMICOLON, ""⟩ := by
    intro p hp
    simp only [currentToken, List.getD]
    rw [List.get?_eq_none.mpr hp]
    rfl
  have hadv : ∀ p : Parser, p.toks.length ≤ p.pos → advanceP p = p := by
    intro p hp
    simp [advanceP]
    omega
  refine ⟨hcur, ?_, ?_, rfl, rfl⟩
  · intro p hp
    simp [expectTok, matchTok, hcur p hp, hadv p hp]
  · intro t p hp ht
    simp [expectTok, matchTok, hcur p hp, ht, Ne.symm ht]

/-- Claim C10 witness: at the exhausted parser state the synthetic token
appears, expect(SEMICOLON) succeeds and expect(RET) fails. -/
theorem c10_end_of_input_synthetic_semicolon_witness :
    currentToken ⟨[], 0⟩ = ⟨.SEMICOLON, ""⟩
    ∧ expectTok .SEMICOLON ⟨[], 0⟩ = .ok ⟨[], 0⟩
    ∧ expectTok .RET ⟨[], 0⟩ =
        .error ("Expected token type " ++ toString (tokenTypeIdx TokenType.RET) ++
                " but got " ++ toString (tokenTypeIdx TokenType.SEMICOLON)) :=
  ⟨c10_end_of_input_synthetic_semicolon.1 ⟨[], 0⟩ (by decide),
   c10_end_of_input_synthetic_semicolon.2.1 ⟨[], 0⟩ (by decide),
   c10_end_of_input_synthetic_semicolon.2.2.1 .RET ⟨[], 0⟩ (by decide) (by decide)⟩
